import Mathlib

/-!
Verification of the voice-conversation session controller in
`src/vc_demo/agent.py` against its specification.

The Python module is an event-wiring script around an external
real-time voice pipeline.  The parts the specification makes claims
about are pure once the external effects are made explicit:

* the inline utterance extraction in `handle_agent_transcript` and
  `handle_agent_interrupted` (agent.py lines 70-77 and 87-93);
* the transcript-store appends performed by the four event handlers;
* `enhance_transcript` (lines 138-151), whose single external
  text-completion call we model as an oracle together with a call
  counter, so that "at most one call" is derivable rather than assumed;
* `save_transcript` (lines 153-160) and the `try/except/finally`
  teardown of `entrypoint` (lines 130-136);
* the JSON shape of the persisted transcript file.

Python dynamic values are embedded shallowly: the `content` field of a
chat message becomes an inductive `PyVal` (string, list, or anything
else), attribute absence becomes `Option`, exceptions of external
calls become explicit outcome constructors, and Python's `str.strip`
becomes `pyStrip` (whitespace trimming on the character list).
-/

namespace VC

/-- Python `str.strip()`: remove whitespace from both ends of a string.
Modelled on the character list so that it evaluates in the kernel. -/
def pyStrip (s : String) : String :=
  String.mk (((s.data.dropWhile Char.isWhitespace).reverse.dropWhile
      Char.isWhitespace).reverse)

/-- Shallow embedding of the dynamic Python value found in the
`content` field of a `ChatMessage`: a string, a list of values, or
anything else (`None`, numbers, objects, ...). -/
inductive PyVal : Type where
  | str (s : String)
  | list (xs : List PyVal)
  | other

/-- Python `isinstance(v, str)`. -/
def PyVal.isStr : PyVal → Bool
  | .str _ => true
  | _ => false

/-- The inline utterance extraction shared by `handle_agent_transcript`
(agent.py lines 70-77) and `handle_agent_interrupted` (lines 87-93):

    transcript = ""
    if isinstance(content, str):
        transcript = content.strip()
    elif isinstance(content, list) and content:
        if isinstance(content[0], str):
            transcript = content[0].strip()
-/
def extractTranscript (content : PyVal) : String :=
  match content with
  | .str s => pyStrip s
  | .list (first :: _) =>
    match first with
    | .str s => pyStrip s
    | _ => ""
  | .list [] => ""
  | .other => ""

/-- One element of the `conversation_log` list: the dict
`{"role": ..., "timestamp": ..., "text": ...}` built by the handlers. -/
structure TranscriptEntry : Type where
  role : String
  timestamp : String
  text : String
  deriving Repr, DecidableEq

/-- `handle_agent_transcript` (agent.py lines 68-83), with the global
`conversation_log` passed and returned explicitly. -/
def handle_agent_transcript (content : PyVal) (conversation_log : List TranscriptEntry) :
    List TranscriptEntry :=
  let transcript := extractTranscript content
  let timestamp := ""
  if transcript ≠ "" then
    conversation_log ++ [{ role := "assistant", timestamp := timestamp, text := transcript }]
  else
    conversation_log

/-- `handle_agent_interrupted` (agent.py lines 86-98). -/
def handle_agent_interrupted (content : PyVal) (conversation_log : List TranscriptEntry) :
    List TranscriptEntry :=
  let transcript := extractTranscript content
  let timestamp := ""
  if transcript ≠ "" then
    conversation_log ++
      [{ role := "assistant", timestamp := timestamp, text := transcript ++ " [interrupted]" }]
  else
    conversation_log

/-- A speech-recognition alternative, duck-typed in Python: `text` is
`none` when the attribute is absent; an empty string is falsy. -/
structure SpeechAlternative : Type where
  text : Option String
  deriving Repr, DecidableEq

/-- A `SpeechEvent` as consumed by `handle_final_transcript`:
`alternatives` is `none` when the attribute is absent. -/
structure SpeechEvent : Type where
  alternatives : Option (List SpeechAlternative)
  deriving Repr, DecidableEq

/-- The extraction in `handle_final_transcript` (agent.py lines 103-106):

    transcript = ""
    if hasattr(data, "alternatives") and data.alternatives:
        alt = data.alternatives[0]
        transcript = alt.text.strip() if hasattr(alt, "text") and alt.text else ""
-/
def extractUserTranscript (data : SpeechEvent) : String :=
  match data.alternatives with
  | some (alt :: _) =>
    match alt.text with
    | some t => if t ≠ "" then pyStrip t else ""
    | none => ""
  | some [] => ""
  | none => ""

/-- Outcome of the one `openai.ChatCompletion.create` call inside
`enhance_transcript`: either the call raised, or it returned a
response whose choices each carry an optional message content (a
missing key or index is raised on access and caught by the same
`except`). -/
inductive CallOutcome : Type where
  | raised (e : String)
  | response (choices : List (Option String))
  deriving Repr, DecidableEq

/-- `enhance_transcript` (agent.py lines 138-151).  The external
service is an oracle `svc` indexed by a call counter `cnt`; the
returned counter counts the calls made, so that "attempted at most
once" is a provable property of the definition rather than an
assumption.  Any exception inside the `try` block — the call itself
raising, an empty `choices` list, or a missing message content —
falls through to `return text`. -/
def enhance_transcript (svc : Nat → String → CallOutcome) (cnt : Nat) (text : String) :
    String × Nat :=
  match svc cnt text with
  | .raised _ => (text, cnt + 1)
  | .response choices =>
    match choices with
    | some s :: _ => (s, cnt + 1)
    | _ => (text, cnt + 1)

/-- `handle_final_transcript` (agent.py lines 101-113), threading the
enhancement oracle and its call counter. -/
def handle_final_transcript (svc : Nat → String → CallOutcome) (cnt : Nat)
    (data : SpeechEvent) (conversation_log : List TranscriptEntry) :
    List TranscriptEntry × Nat :=
  let transcript := extractUserTranscript data
  let timestamp := ""
  if transcript ≠ "" then
    let r := enhance_transcript svc cnt transcript
    (conversation_log ++ [{ role := "user", timestamp := timestamp, text := r.1 }], r.2)
  else
    (conversation_log, cnt)

/-- Opaque payload of a `metrics_collected` event; the handler never
inspects it beyond forwarding. -/
structure AgentMetrics : Type where
  payload : Nat
  deriving Repr, DecidableEq

/-- `on_metrics_collected` (agent.py lines 119-121): forwards the
metrics to the logger and the usage collector; the conversation log is
not touched. -/
def on_metrics_collected (agent_metrics : AgentMetrics)
    (usage : List AgentMetrics) (conversation_log : List TranscriptEntry) :
    List AgentMetrics × List TranscriptEntry :=
  (usage ++ [agent_metrics], conversation_log)

/-- The JSON documents producible by `json.dump` on the structures this
program writes. -/
inductive Json : Type where
  | str (s : String)
  | arr (xs : List Json)
  | obj (fields : List (String × Json))

/-- JSON object written for one transcript entry. -/
def entryToJson (e : TranscriptEntry) : Json :=
  Json.obj [("role", Json.str e.role), ("timestamp", Json.str e.timestamp),
    ("text", Json.str e.text)]

/-- `json.dump(conversation_log, f, indent=4)` in `save_transcript`
(agent.py line 157), at the level of the JSON value written. -/
def serializeLog (conversation_log : List TranscriptEntry) : Json :=
  Json.arr (conversation_log.map entryToJson)

/-- Reading back one object of the persisted file. -/
def entryFromJson (j : Json) : Option TranscriptEntry :=
  match j with
  | Json.obj [("role", Json.str r), ("timestamp", Json.str ts), ("text", Json.str t)] =>
    some { role := r, timestamp := ts, text := t }
  | _ => none

/-- Reading back a list of persisted objects. -/
def parseEntries : List Json → Option (List TranscriptEntry)
  | [] => some []
  | j :: rest =>
    match entryFromJson j, parseEntries rest with
    | some e, some es => some (e :: es)
    | _, _ => none

/-- Reading back the persisted transcript file. -/
def parseLog (j : Json) : Option (List TranscriptEntry) :=
  match j with
  | Json.arr xs => parseEntries xs
  | _ => none

/-- Outcome of the file write in `save_transcript`: the `open`/`dump`
either succeeds or raises. -/
inductive WriteOutcome : Type where
  | ok
  | raised (e : String)
  deriving Repr, DecidableEq

/-- `save_transcript` (agent.py lines 153-160): serialize the log and
write it; any exception is caught and logged.  Returns the (unchanged)
in-memory log together with the logger messages emitted; the return
type has no error component because the function propagates none. -/
def save_transcript (write : Json → WriteOutcome) (conversation_log : List TranscriptEntry) :
    List TranscriptEntry × List String :=
  match write (serializeLog conversation_log) with
  | .ok => (conversation_log, ["Conversation saved to conversation_log.json"])
  | .raised e => (conversation_log, ["Failed to save transcript: " ++ e])

/-- How the `Running` idle loop of `entrypoint` is exited.  The loop
body (lines 131-132) only awaits `asyncio.sleep(1)`, so the only exit
is the cancellation signal. -/
inductive LoopExit : Type where
  | cancelled
  deriving Repr, DecidableEq

/-- The `try/except asyncio.CancelledError/finally` teardown of
`entrypoint` (agent.py lines 130-136): the cancellation is swallowed,
`save_transcript` runs in the `finally` block, and the coroutine
returns normally.  Result: final in-memory log, logger messages, and
whether the process terminates cleanly. -/
def running_teardown (loopExit : LoopExit) (write : Json → WriteOutcome)
    (conversation_log : List TranscriptEntry) :
    List TranscriptEntry × List String × Bool :=
  match loopExit with
  | .cancelled =>
    let r := save_transcript write conversation_log
    (r.1, r.2, true)

/-! ## Helper lemmas about `dropWhile` and `pyStrip` -/

lemma dropWhile_dropWhile (p : α → Bool) (l : List α) :
    (l.dropWhile p).dropWhile p = l.dropWhile p := by
  induction l with
  | nil => rfl
  | cons a l ih =>
    by_cases h : p a
    · simp [List.dropWhile_cons, h, ih]
    · simp [List.dropWhile_cons, h]

lemma head?_dropWhile_false (p : α → Bool) (l : List α) (a : α)
    (h : (l.dropWhile p).head? = some a) : p a = false := by
  induction l with
  | nil => simp at h
  | cons b l ih =>
    by_cases hb : p b
    · rw [List.dropWhile_cons_of_pos hb] at h
      exact ih h
    · rw [List.dropWhile_cons_of_neg (by simpa using hb)] at h
      simp at h
      subst h
      simpa using hb

lemma dropWhile_of_head?_false (p : α → Bool) (l : List α)
    (h : ∀ a, l.head? = some a → p a = false) : l.dropWhile p = l := by
  cases l with
  | nil => rfl
  | cons a l =>
    have : p a = false := h a rfl
    simp [List.dropWhile_cons, this]

lemma getLast?_dropWhile (p : α → Bool) (l : List α)
    (h : l.dropWhile p ≠ []) : (l.dropWhile p).getLast? = l.getLast? := by
  induction l with
  | nil => simp at h
  | cons a l ih =>
    by_cases ha : p a
    · rw [List.dropWhile_cons_of_pos ha] at h ⊢
      have hl : l ≠ [] := by
        intro he; subst he; simp [List.dropWhile] at h
      rw [ih h]
      cases l with
      | nil => exact absurd rfl hl
      | cons b l => rfl
    · rw [List.dropWhile_cons_of_neg (by simpa using ha)]

/-- Stripping a predicate from both ends of a list. -/
def stripList (p : α → Bool) (l : List α) : List α :=
  ((l.dropWhile p).reverse.dropWhile p).reverse

lemma stripList_idem (p : α → Bool) (l : List α) :
    stripList p (stripList p l) = stripList p l := by
  unfold stripList
  set A := l.dropWhile p with hA
  set B := A.reverse.dropWhile p with hB
  have h1 : B.reverse.dropWhile p = B.reverse := by
    apply dropWhile_of_head?_false
    intro a ha
    rw [List.head?_reverse] at ha
    have hBne : B ≠ [] := by
      intro he; rw [he] at ha; simp at ha
    rw [hB, getLast?_dropWhile p A.reverse (hB ▸ hBne), List.getLast?_reverse] at ha
    exact head?_dropWhile_false p l a (hA ▸ ha)
  rw [h1, List.reverse_reverse, dropWhile_dropWhile]

/-- Python `strip` is idempotent, so the normalized text is a fixed
point of `pyStrip`. -/
lemma pyStrip_idem (s : String) : pyStrip (pyStrip s) = pyStrip s := by
  have h := stripList_idem Char.isWhitespace s.data
  unfold stripList at h
  exact congrArg String.mk h

/-- The output of the inline extraction is already stripped. -/
lemma pyStrip_extractTranscript (c : PyVal) :
    pyStrip (extractTranscript c) = extractTranscript c := by
  cases c with
  | str s => exact pyStrip_idem s
  | other => rfl
  | list xs =>
    cases xs with
    | nil => rfl
    | cons x rest =>
      cases x with
      | str s => exact pyStrip_idem s
      | list ys => rfl
      | other => rfl

/-! ## Claim theorems -/

/-- C1: the inline utterance extraction of the assistant
committed/interrupted handlers returns `s.strip()` for string content
`s`, returns `s.strip()` for list content whose first element is the
string `s`, and returns the empty string for every other shape (empty
list, non-string first element, non-string non-list content).  It is a
total Lean function, so no exception is raised on any input. -/
theorem normalizer_spec :
    (∀ s : String, extractTranscript (PyVal.str s) = pyStrip s)
    ∧ (∀ (s : String) (rest : List PyVal),
        extractTranscript (PyVal.list (PyVal.str s :: rest)) = pyStrip s)
    ∧ extractTranscript (PyVal.list []) = ""
    ∧ (∀ (x : PyVal) (rest : List PyVal), x.isStr = false →
        extractTranscript (PyVal.list (x :: rest)) = "")
    ∧ extractTranscript PyVal.other = "" := by
  refine ⟨fun s => rfl, fun s rest => rfl, rfl, ?_, rfl⟩
  intro x rest hx
  cases x with
  | str s => simp [PyVal.isStr] at hx
  | list ys => rfl
  | other => rfl

/-- Witness for C1: a list whose first element is itself a list (not a
string) normalizes to the empty string. -/
theorem normalizer_spec_witness :
    extractTranscript (PyVal.list (PyVal.other :: [PyVal.str "x"])) = "" :=
  normalizer_spec.2.2.2.1 PyVal.other [PyVal.str "x"] rfl

/-- C2: every handler appends only when its normalized text is
non-empty; when the normalized text is empty the log is returned
unchanged (so its length is unchanged), and the metrics handler never
touches the log at all. -/
theorem append_only_if_nonempty (c : PyVal) (svc : Nat → String → CallOutcome)
    (cnt : Nat) (d : SpeechEvent) (m : AgentMetrics) (usage : List AgentMetrics)
    (log : List TranscriptEntry) :
    (extractTranscript c = "" → handle_agent_transcript c log = log)
    ∧ (extractTranscript c = "" → handle_agent_interrupted c log = log)
    ∧ (extractUserTranscript d = "" → handle_final_transcript svc cnt d log = (log, cnt))
    ∧ (handle_agent_transcript c log ≠ log → extractTranscript c ≠ "")
    ∧ (handle_agent_interrupted c log ≠ log → extractTranscript c ≠ "")
    ∧ ((handle_final_transcript svc cnt d log).1 ≠ log → extractUserTranscript d ≠ "")
    ∧ (on_metrics_collected m usage log).2 = log := by
  have h1 : extractTranscript c = "" → handle_agent_transcript c log = log := by
    intro h; simp [handle_agent_transcript, h]
  have h2 : extractTranscript c = "" → handle_agent_interrupted c log = log := by
    intro h; simp [handle_agent_interrupted, h]
  have h3 : extractUserTranscript d = "" →
      handle_final_transcript svc cnt d log = (log, cnt) := by
    intro h; simp [handle_final_transcript, h]
  refine ⟨h1, h2, h3, ?_, ?_, ?_, rfl⟩
  · intro hne he; exact hne (h1 he)
  · intro hne he; exact hne (h2 he)
  · intro hne he; exact hne (by rw [h3 he])

/-- Witness for C2: an empty-content assistant event leaves a
one-entry log unchanged. -/
theorem append_only_if_nonempty_witness :
    handle_agent_transcript (PyVal.str "   ") [{ role := "user", timestamp := "", text := "x" }]
      = [{ role := "user", timestamp := "", text := "x" }] :=
  (append_only_if_nonempty (PyVal.str "   ") (fun _ _ => CallOutcome.raised "e") 0
    { alternatives := none } { payload := 0 } []
    [{ role := "user", timestamp := "", text := "x" }]).1 (by decide)

/-- C3: an assistant-speech-interrupted event whose normalized text
`t` is non-empty appends exactly one entry with role `assistant`,
empty timestamp, and text exactly `t.strip() ++ " [interrupted]"`
(where `t.strip() = t`, the normalized text being already stripped). -/
theorem interrupted_suffix (c : PyVal) (log : List TranscriptEntry)
    (h : extractTranscript c ≠ "") :
    handle_agent_interrupted c log =
      log ++ [{ role := "assistant", timestamp := "",
                text := pyStrip (extractTranscript c) ++ " [interrupted]" }] := by
  rw [pyStrip_extractTranscript]
  simp [handle_agent_interrupted, h]

/-- Witness for C3: a concrete interrupted event with list-shaped
content. -/
theorem interrupted_suffix_witness :
    handle_agent_interrupted (PyVal.list [PyVal.str " partial reply "]) [] =
      [{ role := "assistant", timestamp := "", text := "partial reply [interrupted]" }] :=
  Eq.trans (interrupted_suffix (PyVal.list [PyVal.str " partial reply "]) [] (by decide))
    (by decide)

/-- C4: the enhancement call is attempted exactly once per invocation
(the call counter advances by one — in particular there is no retry);
if the call raises, the original text is returned unchanged; and in
that case the user entry appended by the final-transcript handler
carries the raw normalized text. -/
theorem enhancer_fallback (svc : Nat → String → CallOutcome) (cnt : Nat)
    (text e : String) (d : SpeechEvent) (log : List TranscriptEntry) :
    ((enhance_transcript svc cnt text).2 = cnt + 1)
    ∧ (svc cnt text = CallOutcome.raised e → (enhance_transcript svc cnt text).1 = text)
    ∧ (extractUserTranscript d ≠ "" →
        svc cnt (extractUserTranscript d) = CallOutcome.raised e →
        handle_final_transcript svc cnt d log =
          (log ++ [{ role := "user", timestamp := "", text := extractUserTranscript d }],
           cnt + 1)) := by
  refine ⟨?_, ?_, ?_⟩
  · unfold enhance_transcript
    cases hc : svc cnt text with
    | raised err => rfl
    | response choices =>
      cases choices with
      | nil => rfl
      | cons o rest => cases o <;> rfl
  · intro h
    unfold enhance_transcript
    rw [h]
  · intro hne hr
    simp [handle_final_transcript, hne, enhance_transcript, hr]

/-- Witness for C4: a failing service call leaves the text unchanged
and the appended user entry carries the raw text. -/
theorem enhancer_fallback_witness :
    handle_final_transcript (fun _ _ => CallOutcome.raised "network error") 7
      { alternatives := some [{ text := some " hi there " }] } [] =
      ([{ role := "user", timestamp := "", text := "hi there" }], 8) :=
  Eq.trans
    ((enhancer_fallback (fun _ _ => CallOutcome.raised "network error") 7 "hi there"
        "network error" { alternatives := some [{ text := some " hi there " }] } []).2.2
      (by decide) rfl)
    (by decide)

/-- C5: the user final-transcript handler extracts the first
alternative's `text` field trimmed — empty when the `alternatives`
attribute is absent or empty, or when the `text` field is absent or
empty —, checks non-emptiness before calling the enhancer (on empty
text the oracle counter does not advance: no call is made), and on
non-empty text appends exactly one entry with role `user` whose text
is the enhancer's result. -/
theorem final_transcript_spec (d : SpeechEvent) (svc : Nat → String → CallOutcome)
    (cnt : Nat) (log : List TranscriptEntry) (s : String)
    (rest : List SpeechAlternative) :
    (extractUserTranscript { alternatives := none } = "")
    ∧ (extractUserTranscript { alternatives := some [] } = "")
    ∧ (extractUserTranscript { alternatives := some ({ text := none } :: rest) } = "")
    ∧ (extractUserTranscript { alternatives := some ({ text := some "" } :: rest) } = "")
    ∧ (s ≠ "" →
        extractUserTranscript { alternatives := some ({ text := some s } :: rest) } = pyStrip s)
    ∧ (extractUserTranscript d = "" → handle_final_transcript svc cnt d log = (log, cnt))
    ∧ (extractUserTranscript d ≠ "" →
        handle_final_transcript svc cnt d log =
          (log ++ [{ role := "user", timestamp := "",
                     text := (enhance_transcript svc cnt (extractUserTranscript d)).1 }],
           (enhance_transcript svc cnt (extractUserTranscript d)).2)) := by
  refine ⟨rfl, rfl, rfl, rfl, ?_, ?_, ?_⟩
  · intro hs
    simp [extractUserTranscript, hs]
  · intro h
    simp [handle_final_transcript, h]
  · intro h
    simp [handle_final_transcript, h]

/-- Witness for C5: a concrete final-transcript event with a non-empty
first alternative, enhanced successfully. -/
theorem final_transcript_spec_witness :
    handle_final_transcript (fun _ _ => CallOutcome.response [some "Hi!"]) 0
      { alternatives := some [{ text := some "hi" }] } [] =
      ([{ role := "user", timestamp := "", text := "Hi!" }], 1) :=
  Eq.trans
    ((final_transcript_spec { alternatives := some [{ text := some "hi" }] }
        (fun _ _ => CallOutcome.response [some "Hi!"]) 0 [] "hi" []).2.2.2.2.2.2
      (by decide))
    (by decide)

/-- On reading back, each serialized entry parses to itself. -/
lemma entryFromJson_entryToJson (e : TranscriptEntry) :
    entryFromJson (entryToJson e) = some e := rfl

/-- Reading back a serialized list of entries yields the list. -/
lemma parseEntries_map_entryToJson (log : List TranscriptEntry) :
    parseEntries (log.map entryToJson) = some log := by
  induction log with
  | nil => rfl
  | cons e log ih =>
    simp [parseEntries, entryFromJson_entryToJson, ih]

/-- C6: serializing a ConversationLog of N entries produces a
top-level array of exactly N objects with keys `role`, `timestamp`,
`text` in insertion order, and parsing the serialized document back
yields the original log (round-trip identity). -/
theorem serialize_roundtrip (log : List TranscriptEntry) :
    parseLog (serializeLog log) = some log
    ∧ serializeLog log =
        Json.arr (log.map (fun e => Json.obj [("role", Json.str e.role),
          ("timestamp", Json.str e.timestamp), ("text", Json.str e.text)]))
    ∧ (∀ xs, serializeLog log = Json.arr xs → xs.length = log.length) := by
  refine ⟨?_, rfl, ?_⟩
  · simp [parseLog, serializeLog, parseEntries_map_entryToJson]
  · intro xs hxs
    have : xs = log.map entryToJson := by
      cases hxs; rfl
    rw [this, List.length_map]

/-- Witness for C6: round-trip on a concrete two-entry log. -/
theorem serialize_roundtrip_witness :
    parseLog (serializeLog [{ role := "assistant", timestamp := "", text := "a" },
      { role := "user", timestamp := "", text := "b" }]) =
      some [{ role := "assistant", timestamp := "", text := "a" },
        { role := "user", timestamp := "", text := "b" }] :=
  (serialize_roundtrip [{ role := "assistant", timestamp := "", text := "a" },
    { role := "user", timestamp := "", text := "b" }]).1

/-- C7: the end-to-end scenario — assistant committed "Hello there",
then a user final transcript with first alternative "hi!" whose
enhancement call fails, then an assistant interruption with content
list `["partial reply"]` — produces exactly the three expected
entries in order. -/
theorem end_to_end_scenario :
    handle_agent_interrupted (PyVal.list [PyVal.str "partial reply"])
      (handle_final_transcript (fun _ _ => CallOutcome.raised "network error") 0
        { alternatives := some [{ text := some "hi!" }] }
        (handle_agent_transcript (PyVal.str "Hello there") [])).1
    = [{ role := "assistant", timestamp := "", text := "Hello there" },
       { role := "user", timestamp := "", text := "hi!" },
       { role := "assistant", timestamp := "", text := "partial reply [interrupted]" }] := by
  decide

/-- C8: the metrics handler never appends to the conversation log:
whatever the payload, the log component of its result is the input log
(its only effects are the logger call and the usage aggregation). -/
theorem metrics_no_transcript_effect (m : AgentMetrics) (usage : List AgentMetrics)
    (log : List TranscriptEntry) :
    (on_metrics_collected m usage log).2 = log ∧
    ((on_metrics_collected m usage log).2).length = log.length :=
  ⟨rfl, rfl⟩

/-- C9: on every exit from the Running idle loop the log is flushed
through `save_transcript`; the in-memory log is unchanged, a failing
write is logged ("Failed to save transcript: ...") rather than
propagated (the function is total with no error component), and the
process terminates cleanly whether or not the write failed. -/
theorem flush_on_exit (loopExit : LoopExit) (write : Json → WriteOutcome)
    (log : List TranscriptEntry) (e : String) :
    ((running_teardown loopExit write log).1 = log)
    ∧ ((running_teardown loopExit write log).2.1 = (save_transcript write log).2)
    ∧ ((save_transcript write log).1 = log)
    ∧ (write (serializeLog log) = WriteOutcome.raised e →
        save_transcript write log = (log, ["Failed to save transcript: " ++ e]))
    ∧ ((running_teardown loopExit write log).2.2 = true) := by
  cases loopExit
  refine ⟨?_, rfl, ?_, ?_, rfl⟩
  · show (save_transcript write log).1 = log
    unfold save_transcript
    cases write (serializeLog log) <;> rfl
  · unfold save_transcript
    cases write (serializeLog log) <;> rfl
  · intro h
    unfold save_transcript
    rw [h]

/-- Witness for C9: teardown with a failing disk write still returns
the unchanged log, logs the failure, and terminates cleanly. -/
theorem flush_on_exit_witness :
    running_teardown LoopExit.cancelled (fun _ => WriteOutcome.raised "disk full")
      [{ role := "user", timestamp := "", text := "x" }] =
      ([{ role := "user", timestamp := "", text := "x" }],
       ["Failed to save transcript: disk full"], true) := by
  have h := flush_on_exit LoopExit.cancelled (fun _ => WriteOutcome.raised "disk full")
    [{ role := "user", timestamp := "", text := "x" }] "disk full"
  have hs := h.2.2.2.1 rfl
  have h1 := h.1
  have h2 := h.2.1
  have h4 := h.2.2.2.2
  rw [hs] at h2
  exact Prod.ext h1 (Prod.ext h2 h4)

/-- C10: the enhancer's output is stored verbatim in the user entry —
neither trimmed nor re-checked for emptiness — so a successful
enhancement returning any string `s` (even empty or whitespace-only)
is appended as the entry text. -/
theorem enhanced_text_stored_verbatim (svc : Nat → String → CallOutcome) (cnt : Nat)
    (d : SpeechEvent) (log : List TranscriptEntry) (s : String)
    (rest : List (Option String))
    (hne : extractUserTranscript d ≠ "")
    (hsvc : svc cnt (extractUserTranscript d) = CallOutcome.response (some s :: rest)) :
    handle_final_transcript svc cnt d log =
      (log ++ [{ role := "user", timestamp := "", text := s }], cnt + 1) := by
  simp [handle_final_transcript, hne, enhance_transcript, hsvc]

/-- Witness for C10: a successful enhancement returning a
whitespace-only string still appends a user entry with that
whitespace-only text. -/
theorem enhanced_text_stored_verbatim_witness :
    handle_final_transcript (fun _ _ => CallOutcome.response [some " "]) 0
      { alternatives := some [{ text := some "hi" }] } [] =
      ([{ role := "user", timestamp := "", text := " " }], 1) :=
  enhanced_text_stored_verbatim (fun _ _ => CallOutcome.response [some " "]) 0
    { alternatives := some [{ text := some "hi" }] } [] " " [] (by decide) rfl

end VC
